import Mathlib

/-!
Verification of the virtual try-on application's measurement and
size-recommendation behaviour.

The frontend sources (`src/frontend/src/components/*.tsx`,
`src/backend/static/js/*.js`, and the unnamed TypeScript modules) are
embedded shallowly below: pure fragments become Lean functions over `ℚ`,
`ℝ`, `String` and `List`; DOM/network state that a fragment reads or
writes is passed explicitly.  The backend measurement engine (landmark
validation, scale calibration, measurement estimation, unit conversion,
fit scoring and recommendation assembly) is not part of the repository's
files; those components are modelled from the specification, and each such
definition carries a doc comment saying so.
-/

namespace VirtualTryOn

/-! ### Garment category gender filter

Embedded from `fetchCategories` in
`src/frontend/src/components/SizeRecommendations.tsx` (lines 37–58) and
`loadGarmentCategories` in `src/backend/static/js/size_recommendations.js`
(lines 6–57).  Both filter the `{key, name}` category list by the selected
gender; the JS version keeps everything when no gender is selected. -/

structure GarmentCategoryInfo where
  key : String
  name : String
deriving DecidableEq, Repr

/-- The per-category predicate of `loadGarmentCategories`' filter callback:
`MENS_`-prefixed keys for `male`, `WOMENS_`-prefixed keys or the literal
`DRESS` for `female`, everything otherwise. -/
def genderKeeps (gender : String) (category : GarmentCategoryInfo) : Bool :=
  if gender = "male" then
    category.key.startsWith "MENS_"
  else if gender = "female" then
    category.key.startsWith "WOMENS_" || category.key == "DRESS"
  else
    true

/-- The category filter applied to the list the categories endpoint returns. -/
def filterCategoriesByGender (gender : String) (cats : List GarmentCategoryInfo) :
    List GarmentCategoryInfo :=
  cats.filter (genderKeeps gender)

/-! ### Measurement request validation

Embedded from `calculateMeasurements` in
`src/frontend/src/components/TryOn.tsx` (lines 33–65) and `validateForm`
in `src/backend/static/js/script.js` (lines 231–236).  The height input is
a string; an empty input is modelled as `none` and a numeric input as
`some` of its value, so `!height || Number(height) <= 0` becomes a match
on the option. -/

/-- What `calculateMeasurements` does before any request is sent: either it
rejects with a validation message, or it submits the request payload. -/
inductive CalcAction where
  | rejected (message : String)
  | submitted (front_image : String) (side_image : Option String)
      (calibration_height : ℚ) (units : String) (gender : String)

def CalcAction.isRejected : CalcAction → Bool
  | .rejected _ => true
  | .submitted _ _ _ _ _ => false

/-- The guard sequence of `calculateMeasurements`: a missing front image is
rejected first, then a missing or non-positive height; only then is the
measurement request submitted. -/
def calculateMeasurements (frontImage : Option String) (sideImage : Option String)
    (height : Option ℚ) (units gender : String) : CalcAction :=
  match frontImage with
  | none => .rejected "Front image is required"
  | some front =>
    match height with
    | none => .rejected "Please enter a valid height"
    | some h =>
      if h ≤ 0 then .rejected "Please enter a valid height"
      else .submitted front sideImage h units gender

/-- The form validation of `script.js`: the calculate button is enabled only
when a front image is stored and the height field parses to a positive
number. -/
def validateForm (frontImageData : Option String) (height : Option ℚ) : Bool :=
  (frontImageData ≠ none) &&
    (match height with
     | none => false
     | some h => decide (0 < h))

/-! ### Upload file validation

Embedded from `processFile` in `src/backend/static/js/script.js`
(lines 165–206).  The function validates MIME type and size; on success the
`FileReader` callback stores the file and its data URL in the app state and
clears the error banner, on failure it shows an error and leaves the state
alone.  The displayed error is returned beside the new state. -/

structure UploadFile where
  mime : String
  size : ℕ
  data : String
deriving DecidableEq, Repr

structure UploadState where
  frontImage : Option UploadFile
  sideImage : Option UploadFile
  frontImageData : Option String
  sideImageData : Option String
deriving DecidableEq, Repr

inductive ImageSlot where
  | front
  | side
deriving DecidableEq, Repr

def validTypes : List String := ["image/jpeg", "image/jpg", "image/png"]

def maxFileSize : ℕ := 10 * 1024 * 1024

/-- One run of `processFile`: the resulting app state together with the error
message it displays (`none` means the error banner is hidden). -/
def processFile (file : UploadFile) (slot : ImageSlot) (st : UploadState) :
    UploadState × Option String :=
  if file.mime ∈ validTypes then
    if maxFileSize < file.size then
      (st, some "Image size must be less than 10MB")
    else
      match slot with
      | .front =>
        ({ st with frontImage := some file, frontImageData := some file.data }, none)
      | .side =>
        ({ st with sideImage := some file, sideImageData := some file.data }, none)
  else
    (st, some "Please upload a JPEG or PNG image")

/-! ### Cloth selection toggle

Embedded from `handleToggleCloth` in the virtual try-on studio component
(`src/unnamed/part_006`, lines 145–154): the state updater removes every
entry with the toggled item's id when one is present, and appends the item
otherwise. -/

structure ClothItem where
  id : String
  title : String
  brand : String
  category : String
  image : String
deriving DecidableEq, Repr

/-- The updater passed to `setSelectedClothes` by `handleToggleCloth`. -/
def handleToggleCloth (item : ClothItem) (prev : List ClothItem) : List ClothItem :=
  if (prev.find? (fun i => i.id == item.id)).isSome then
    prev.filter (fun i => i.id != item.id)
  else
    prev ++ [item]

/-- Membership of an id in a selection list, as the component observes it. -/
def selectedById (id : String) (l : List ClothItem) : Bool :=
  l.any (fun i => i.id == id)

/-! ### Skeleton rendering

Embedded from `drawSkeleton` in `src/backend/static/js/script.js`
(lines 382–434).  The function draws a connection line when both endpoint
landmarks exist (`landmarks[start] && landmarks[end]`) and both have
`visibility > 0.5`, and draws a landmark dot when `lm.visibility > 0.5`;
out-of-range indices yield `undefined`, which is falsy, so they are
modelled with `List.get?`. -/

structure PoseLandmark where
  x : ℚ
  y : ℚ
  visibility : ℚ
deriving DecidableEq, Repr

/-- The hard-coded simplified skeleton of `drawSkeleton`. -/
def skeletonConnections : List (ℕ × ℕ) :=
  [(11, 12),
   (11, 13), (13, 15),
   (12, 14), (14, 16),
   (11, 23), (12, 24),
   (23, 24),
   (23, 25), (25, 27),
   (24, 26), (26, 28)]

/-- Whether `drawSkeleton` strokes the connection `c`: both landmarks exist
and both visibilities strictly exceed 0.5. -/
def connectionVisible (lms : List PoseLandmark) (c : ℕ × ℕ) : Bool :=
  match lms[c.1]?, lms[c.2]? with
  | some startLm, some endLm =>
    decide (1/2 < startLm.visibility) && decide (1/2 < endLm.visibility)
  | _, _ => false

/-- The connections `drawSkeleton` actually strokes. -/
def drawnConnections (lms : List PoseLandmark) : List (ℕ × ℕ) :=
  skeletonConnections.filter (connectionVisible lms)

/-- The landmark dots `drawSkeleton` actually fills. -/
def drawnLandmarks (lms : List PoseLandmark) : List PoseLandmark :=
  lms.filter (fun lm => decide (1/2 < lm.visibility))

/-! ### Webhook image-URL extraction

Embedded from `extractImageUrl` in the virtual try-on studio component
(`src/unnamed/part_006`, lines 72–103).  JavaScript strings are modelled as
`List Char` so that trimming and quote-stripping are structural; JSON
values are the inductive `JsValue`.  `JSON.parse` is a host function and is
passed in as a parameter; a parse failure (the `catch` that keeps `data`
unchanged) is its `none` result.  Property access on `null`/`undefined`
throws a `TypeError` in JavaScript (the caller catches it); the model
totalises such access to `undefined`, which only ever sends the function
down a return-`null` path. -/

abbrev JStr := List Char

inductive JsValue where
  | str (s : JStr)
  | num (q : ℚ)
  | boolean (b : Bool)
  | nullv
  | undefVal
  | obj (fields : List (JStr × JsValue))
  | arr (elems : List JsValue)

/-- JavaScript truthiness of a value. -/
def jsTruthy : JsValue → Bool
  | .str s => !s.isEmpty
  | .num q => decide (q ≠ 0)
  | .boolean b => b
  | .nullv => false
  | .undefVal => false
  | .obj _ => true
  | .arr _ => true

/-- Property access `v[key]`: the first field with the key on an object,
`undefined` otherwise. -/
def getProp (v : JsValue) (key : JStr) : JsValue :=
  match v with
  | .obj fields =>
    match fields.find? (fun p => p.1 == key) with
    | some p => p.2
    | none => .undefVal
  | _ => .undefVal

/-- The whitespace characters `String.prototype.trim` removes (the ASCII
ones; the claim only needs that none of them is a letter). -/
def isJsSpace (c : Char) : Bool :=
  c = ' ' || c = '\t' || c = '\n' || c = '\r'

/-- Leading-whitespace removal. -/
def trimLeading (s : JStr) : JStr := s.dropWhile isJsSpace

/-- Trailing-whitespace removal. -/
def trimTrailing (s : JStr) : JStr := ((s.reverse).dropWhile isJsSpace).reverse

/-- The model of `result.trim()`. -/
def trimChars (s : JStr) : JStr := trimTrailing (trimLeading s)

/-- A quote character, double (code 34) or single (code 39). -/
def isQuoteChar (c : Char) : Bool := c = Char.ofNat 34 || c = Char.ofNat 39

/-- Removal of one leading quote character, as `^["']` replaces it. -/
def dropLeadingQuote : JStr → JStr
  | [] => []
  | c :: rest => if isQuoteChar c then rest else c :: rest

/-- Removal of one trailing quote character, as `["']$` replaces it. -/
def dropTrailingQuote (s : JStr) : JStr := (dropLeadingQuote s.reverse).reverse

/-- The model of `.replace(/^["']|["']$/g, '')` on the trimmed result. -/
def stripQuotes (s : JStr) : JStr := dropTrailingQuote (dropLeadingQuote s)

def httpChars : JStr := "http".data

def dataColonChars : JStr := "data:".data

def openBraceChar : Char := Char.ofNat 123

/-- Whether a value is a string starting with `http` or `data:`, the
predicate of the `Object.values(data).find` callback. -/
def isUrlString : JsValue → Bool
  | .str s => httpChars.isPrefixOf s || dataColonChars.isPrefixOf s
  | _ => false

/-- Lower-casing a modelled JavaScript string. -/
def lowerStr (s : JStr) : JStr := s.map Char.toLower

/-- Substring containment, `String.prototype.includes`. -/
def containsSub (pat : JStr) : JStr → Bool
  | [] => pat.isEmpty
  | c :: rest => pat.isPrefixOf (c :: rest) || containsSub pat rest

def urlKeyNames : List JStr :=
  ["avatar_url".data, "output_image".data, "image_url".data,
   "url".data, "output".data, "result".data]

/-- The key predicate of `keys.find`: a known URL-ish key name, or a key
whose lower-casing contains `url` or `avatar`. -/
def isUrlKey (k : JStr) : Bool :=
  urlKeyNames.contains (lowerStr k) ||
    containsSub "url".data (lowerStr k) ||
    containsSub "avatar".data (lowerStr k)

/-- Decimal digits of an array index, the key `Object.keys` reports for it. -/
def natChars (n : ℕ) : JStr := (toString n).data

/-- The `typeof data === 'object' && data !== null` branch: search the keys
for a URL-ish one and return its value, else the first string value with a
URL prefix; `undefined` when neither search succeeds (`find` misses). -/
def objectSearch (fields : List (JStr × JsValue)) : JsValue :=
  match (fields.map (fun p => p.1)).find? isUrlKey with
  | some k =>
    match fields.find? (fun p => p.1 == k) with
    | some p => p.2
    | none => .undefVal
  | none =>
    match (fields.map (fun p => p.2)).find? isUrlString with
    | some v => v
    | none => .undefVal

/-- Step 1 of `extractImageUrl`: unwrap a non-empty array to
`data[0].json || data[0]`. -/
def unwrapArray (data : JsValue) : JsValue :=
  match data with
  | .arr (e0 :: _) =>
    let j := getProp e0 "json".data
    if jsTruthy j then j else e0
  | _ => data

/-- Step 2 of `extractImageUrl`: parse a string whose trimmed form starts
with an opening brace, keeping the string when parsing fails. -/
def parseIfJson (jsonParse : JStr → Option JsValue) (data : JsValue) : JsValue :=
  match data with
  | .str s =>
    if (trimChars s).head? = some openBraceChar then
      match jsonParse s with
      | some v => v
      | none => data
    else data
  | _ => data

/-- Step 3 of `extractImageUrl`: the value `result` holds at the final
guard.  A string is taken as is; an object is searched by key then by
value; an array behaves as the object whose keys are its index strings
(`typeof [] === 'object'`); everything else leaves `result` null, modelled
as `undefined` since both are falsy. -/
def resultOf (data : JsValue) : JsValue :=
  match data with
  | .str s => .str s
  | .obj fields => objectSearch fields
  | .arr elems => objectSearch (elems.enum.map (fun p => (natChars p.1, p.2)))
  | _ => .undefVal

/-- The final guard of `extractImageUrl`: a truthy string with a `http` or
`data:` prefix is trimmed and quote-stripped, anything else yields null. -/
def finalGuard (result : JsValue) : Option JStr :=
  match result with
  | .str s =>
    if !s.isEmpty && (httpChars.isPrefixOf s || dataColonChars.isPrefixOf s) then
      some (stripQuotes (trimChars s))
    else none
  | _ => none

/-- The whole of `extractImageUrl`, parameterised by the host `JSON.parse`. -/
def extractImageUrl (jsonParse : JStr → Option JsValue) (data : JsValue) :
    Option JStr :=
  finalGuard (resultOf (parseIfJson jsonParse (unwrapArray data)))

/-! ### Unit converter

Modelled from the spec: §4.4 — `imperial multiplies every field by
0.393701 (cm→in)`; the inverse conversion is not in the repository's
files and is modelled as division by the same constant, the choice under
which §4.4's reversibility requirement holds exactly. -/

/-- Modelled from the spec: the fixed cm→in multiplier 0.393701 of §4.4. -/
def cmToInFactor : ℚ := 393701 / 1000000

/-- Modelled from the spec: conversion of a measurement from centimeters to
inches. -/
def convertCmToIn (x : ℚ) : ℚ := x * cmToInFactor

/-- Modelled from the spec: conversion of a measurement from inches back to
centimeters (the Unit Converter's inverse direction, not in the
repository's files). -/
def convertInToCm (x : ℚ) : ℚ := x / cmToInFactor

/-! ### Size fit scorer

Modelled from the spec: §4.6 — normalized deviation per relevant
measurement, root-mean-square aggregation, `fit_score = clamp(1 −
aggregate_deviation, 0, 1)`, threshold classification, per-measurement
analysis from the signed deviation.  The scorer itself is not in the
repository's files.  Analysis text generation is kept as the signed
deviation the text is generated from. -/

/-- A size band: a label and the (measurement, min, max) ranges relevant to
the category, ordered smallest→largest within the catalog. -/
structure SizeBand where
  size : String
  ranges : List (String × ℚ × ℚ)

/-- Modelled from the spec: the normalized deviation `d = (actual − center)
/ halfwidth` of §4.6 step 1 for one (measurement, min, max) range, against
a profile read as a measurement-name valuation. -/
noncomputable def deviation (profile : String → ℝ) (r : String × ℚ × ℚ) : ℝ :=
  (profile r.1 - (((r.2.1 : ℝ) + (r.2.2 : ℝ)) / 2)) / (((r.2.2 : ℝ) - (r.2.1 : ℝ)) / 2)

/-- Modelled from the spec: §4.6 step 2, root-mean-square aggregation of the
band's deviations. -/
noncomputable def aggregateDeviation (profile : String → ℝ) (band : SizeBand) : ℝ :=
  Real.sqrt (((band.ranges.map (fun r => deviation profile r ^ 2)).sum) /
    (band.ranges.length : ℝ))

/-- Clamping to the unit interval. -/
noncomputable def clamp01 (x : ℝ) : ℝ := max 0 (min 1 x)

/-- Modelled from the spec: §4.6 step 3, `fit_score = clamp(1 −
aggregate_deviation, 0, 1)`. -/
noncomputable def fitScore (profile : String → ℝ) (band : SizeBand) : ℝ :=
  clamp01 (1 - aggregateDeviation profile band)

/-- Modelled from the spec: the mean signed deviation §4.6 step 4 uses to
tell a loose fit from a tight one. -/
noncomputable def meanSignedDeviation (profile : String → ℝ) (band : SizeBand) : ℝ :=
  ((band.ranges.map (deviation profile)).sum) / (band.ranges.length : ℝ)

/-- Modelled from the spec: §4.6 step 4, threshold classification of the
fit category. -/
noncomputable def fitCategory (score signedMean : ℝ) : String :=
  if 9/10 ≤ score then "Perfect Fit"
  else if 7/10 ≤ score then "Good Fit"
  else if 1/2 ≤ score then (if 0 < signedMean then "Tight Fit" else "Loose Fit")
  else "Poor Fit"

/-- One entry of the recommendation list: size label, fit score, fit
category, and the per-measurement signed deviations the fit-analysis text
is generated from. -/
structure SizeRecommendation where
  size : String
  fit_score : ℝ
  fit_category : String
  fit_analysis : List (String × ℝ)

/-- Modelled from the spec: scoring one size band into a recommendation
entry (§4.6). -/
noncomputable def scoreBand (profile : String → ℝ) (band : SizeBand) :
    SizeRecommendation :=
  { size := band.size
    fit_score := fitScore profile band
    fit_category := fitCategory (fitScore profile band) (meanSignedDeviation profile band)
    fit_analysis := band.ranges.map (fun r => (r.1, deviation profile r)) }

/-! ### Recommendation assembler

Modelled from the spec: §4.7 — every band of the category is scored and
the entries are sorted by fit score descending, ties resolved in favour of
the smaller size (§4.6, §8).  `sortRecs` sorts the tail first and inserts
the head, so at every insertion the inserted entry is the earliest
remaining catalog band; `insertRec` places it before the first entry that
does not score strictly higher, so an earlier (smaller) band ends up
before every band it ties with — `sortRecs` on the catalog's
smallest→largest band order is stable and realises the §4.6 tie-break
policy (see `sortRecs_tie_prefers_smaller`). -/

/-- Modelled from the spec: insertion into a list sorted by fit score
descending; the entry goes in front of the first existing entry that does
not score strictly higher, so the entry being inserted — always the
earlier catalog band in `sortRecs` — precedes every entry of equal
score. -/
noncomputable def insertRec (a : SizeRecommendation) :
    List SizeRecommendation → List SizeRecommendation
  | [] => [a]
  | b :: l => if b.fit_score ≤ a.fit_score then a :: b :: l else b :: insertRec a l

/-- Modelled from the spec: the assembler's stable sort by fit score
descending. -/
noncomputable def sortRecs : List SizeRecommendation → List SizeRecommendation
  | [] => []
  | a :: l => insertRec a (sortRecs l)

/-- Modelled from the spec: §4.7's Recommendation Assembler — score every
band of the requested category and sort by fit score descending. -/
noncomputable def assembleRecommendations (profile : String → ℝ)
    (bands : List SizeBand) : List SizeRecommendation :=
  sortRecs (bands.map (scoreBand profile))

/-! ### Landmark validation, calibration and measurement estimation

Modelled from the spec: §§4.1–4.3 and §7 — the backend Measurement
Estimator is not in the repository's files.  Landmarks are normalized
`(x, y, visibility)` triples; a joint is usable when its confidence is at
least 0.5; the request fails when a required joint subset (shoulders
{11,12}, hips {23,24}, ankles {27,28}, head reference {0}) is unusable or
the set does not have exactly 33 entries.  The degenerate-span check of
§4.2 is made on the squared vertical span, which is equivalent to the
spec's check on the span since both sides are nonnegative.  The side view
is calibrated independently (§4.2); when it offers a usable depth sample,
chest is estimated and hip and waist switch from their flat multipliers
to the elliptical-circumference form (§4.3); a missing or unusable side
view degrades chest to null and leaves hip and waist on the flat
multipliers, never failing the request (§4.1, §7 `Degraded
measurement`). -/

structure Landmark where
  x : ℚ
  y : ℚ
  visibility : ℚ
deriving DecidableEq, Repr

abbrev LandmarkSet := List Landmark

def landmarkAt (lms : LandmarkSet) (i : ℕ) : Landmark := lms.getD i ⟨0, 0, 0⟩

/-- Modelled from the spec: a joint is usable when its confidence is at
least the 0.5 threshold (§4.1). -/
def jointUsable (lms : LandmarkSet) (i : ℕ) : Bool :=
  decide ((1 : ℚ)/2 ≤ (landmarkAt lms i).visibility)

/-- Modelled from the spec: §4.1's front-set validation — exactly 33
entries, and the shoulders, hips, ankles and head-reference subsets all
usable. -/
def validFrontPose (lms : LandmarkSet) : Bool :=
  (lms.length == 33) &&
    jointUsable lms 11 && jointUsable lms 12 &&
    jointUsable lms 23 && jointUsable lms 24 &&
    jointUsable lms 27 && jointUsable lms 28 &&
    jointUsable lms 0

/-- Midpoint of two landmarks in normalized pixel space. -/
def midpointLm (a b : Landmark) : Landmark :=
  ⟨(a.x + b.x) / 2, (a.y + b.y) / 2, min a.visibility b.visibility⟩

/-- Squared pixel distance between two landmarks, kept rational so the
degenerate-span check stays decidable. -/
def pixelDistSq (a b : Landmark) : ℚ := (a.x - b.x) ^ 2 + (a.y - b.y) ^ 2

/-- Euclidean pixel distance. -/
noncomputable def pixelDist (a b : Landmark) : ℝ := Real.sqrt ((pixelDistSq a b : ℝ))

/-- Modelled from the spec: the squared vertical pixel span of §4.2, head
reference to ankle midpoint. -/
def verticalSpanSq (lms : LandmarkSet) : ℚ :=
  pixelDistSq (landmarkAt lms 0) (midpointLm (landmarkAt lms 27) (landmarkAt lms 28))

/-- Modelled from the spec: the small epsilon under which the vertical span
counts as degenerate (§4.2; a tunable configuration constant). -/
def spanEpsilon : ℚ := 1 / 1000

/-- Modelled from the spec: the pixel→real-world scale factor `scale =
calibration_height / vertical_pixel_span` of §4.2. -/
noncomputable def scaleFactor (calibrationHeight : ℚ) (lms : LandmarkSet) : ℝ :=
  (calibrationHeight : ℝ) / Real.sqrt ((verticalSpanSq lms : ℝ))

/-- Modelled from the spec: the empirical circumference-from-width
multiplier for the hip (§4.3; a tunable configuration constant). -/
def kHip : ℚ := 27 / 10

/-- Modelled from the spec: the circumference-from-width multiplier for the
waist (§4.3; a tunable configuration constant). -/
def kWaist : ℚ := 26 / 10

/-- Modelled from the spec: the vertical fraction from shoulder toward hip
at which the waist is measured (§4.3). -/
def waistFraction : ℚ := 3 / 5

/-- Linear interpolation between two landmarks. -/
def lerpLm (a b : Landmark) (t : ℚ) : Landmark :=
  ⟨a.x + t * (b.x - a.x), a.y + t * (b.y - a.y), min a.visibility b.visibility⟩

/-- Modelled from the spec: whether a supplied side view can support chest
estimation — 33 entries, usable shoulder landmarks and a non-degenerate
span of its own; anything less only degrades `chest` to null (§4.1). -/
def sideUsableForChest (side : LandmarkSet) : Bool :=
  (side.length == 33) &&
    jointUsable side 11 && jointUsable side 12 &&
    decide (spanEpsilon ^ 2 < verticalSpanSq side)

/-- Modelled from the spec: whether a supplied side view offers a usable
depth sample at hip height (§4.3) — 33 entries, usable hip landmarks and a
non-degenerate span of its own. -/
def sideUsableForHip (side : LandmarkSet) : Bool :=
  (side.length == 33) &&
    jointUsable side 23 && jointUsable side 24 &&
    decide (spanEpsilon ^ 2 < verticalSpanSq side)

/-- Modelled from the spec: whether a supplied side view offers a usable
depth sample at waist height (§4.3) — the waist point is interpolated
between shoulders and hips, so all four of those joints must be usable. -/
def sideUsableForWaist (side : LandmarkSet) : Bool :=
  (side.length == 33) &&
    jointUsable side 11 && jointUsable side 12 &&
    jointUsable side 23 && jointUsable side 24 &&
    decide (spanEpsilon ^ 2 < verticalSpanSq side)

/-- Modelled from the spec: the elliptical-circumference approximation
`π * sqrt(2*(width² + depth²)) / 2` of §4.3. -/
noncomputable def ellipticalCircumference (width depth : ℝ) : ℝ :=
  Real.pi * Real.sqrt (2 * (width ^ 2 + depth ^ 2)) / 2

/-- Modelled from the spec: `hip_width = dist(L23, L24) * scale_front`
(§4.3). -/
noncomputable def hipWidth (front : LandmarkSet) (calibrationHeight : ℚ) : ℝ :=
  pixelDist (landmarkAt front 23) (landmarkAt front 24) *
    scaleFactor calibrationHeight front

/-- Modelled from the spec: the waist width measured between torso points
interpolated from shoulder toward hip at the waist fraction (§4.3). -/
noncomputable def waistWidth (front : LandmarkSet) (calibrationHeight : ℚ) : ℝ :=
  pixelDist (lerpLm (landmarkAt front 11) (landmarkAt front 23) waistFraction)
    (lerpLm (landmarkAt front 12) (landmarkAt front 24) waistFraction) *
    scaleFactor calibrationHeight front

/-- Modelled from the spec: the side-view depth sample at hip height, at
the side image's own scale (§4.2, §4.3). -/
noncomputable def hipDepth (side : LandmarkSet) (calibrationHeight : ℚ) : ℝ :=
  pixelDist (landmarkAt side 23) (landmarkAt side 24) *
    scaleFactor calibrationHeight side

/-- Modelled from the spec: the side-view depth sample at waist height, at
the side image's own scale (§4.2, §4.3). -/
noncomputable def waistDepth (side : LandmarkSet) (calibrationHeight : ℚ) : ℝ :=
  pixelDist (lerpLm (landmarkAt side 11) (landmarkAt side 23) waistFraction)
    (lerpLm (landmarkAt side 12) (landmarkAt side 24) waistFraction) *
    scaleFactor calibrationHeight side

/-- Modelled from the spec: §4.3's hip — the elliptical-circumference
approximation on width and side depth when a usable side-view depth sample
is available, the flat multiplier `k_hip * hip_width` otherwise. -/
noncomputable def hipMeasurement (front : LandmarkSet) (calibrationHeight : ℚ)
    (side : Option LandmarkSet) : ℝ :=
  match side with
  | some s =>
    if sideUsableForHip s then
      ellipticalCircumference (hipWidth front calibrationHeight)
        (hipDepth s calibrationHeight)
    else (kHip : ℝ) * hipWidth front calibrationHeight
  | none => (kHip : ℝ) * hipWidth front calibrationHeight

/-- Modelled from the spec: §4.3's waist, computed analogously to hip —
elliptical form with the side depth sample when available, flat multiplier
otherwise. -/
noncomputable def waistMeasurement (front : LandmarkSet) (calibrationHeight : ℚ)
    (side : Option LandmarkSet) : ℝ :=
  match side with
  | some s =>
    if sideUsableForWaist s then
      ellipticalCircumference (waistWidth front calibrationHeight)
        (waistDepth s calibrationHeight)
    else (kWaist : ℝ) * waistWidth front calibrationHeight
  | none => (kWaist : ℝ) * waistWidth front calibrationHeight

/-- The measurement profile of §3: six measurements, `chest` nullable when
no side view supports it. -/
structure MeasurementProfile where
  shoulder_width : ℝ
  chest : Option ℝ
  waist : ℝ
  hip : ℝ
  height : ℝ
  inseam : ℝ
  units : String

/-- The flat failure enumeration of §4.7. -/
inductive MeasurementFailure where
  | validationError (message : String)
  | poseDetectionFailure (message : String)
  | calibrationError (message : String)

-- (the front-view measurements are assembled directly in `baseProfile` below)

/-- Modelled from the spec: chest estimation needs the side view — the
elliptical form on the front chest width and the side depth sample, each
at its own image's scale (§4.2, §4.3); otherwise null. -/
noncomputable def chestMeasurement (front : LandmarkSet) (calibrationHeight : ℚ)
    (side : Option LandmarkSet) : Option ℝ :=
  match side with
  | none => none
  | some s =>
    if sideUsableForChest s then
      some (ellipticalCircumference
        (pixelDist (landmarkAt front 11) (landmarkAt front 12) *
          scaleFactor calibrationHeight front)
        (pixelDist (landmarkAt s 11) (landmarkAt s 12) *
          scaleFactor calibrationHeight s))
    else none

/-- Modelled from the spec: §4.4 applied once at the boundary — metric
keeps centimeters, imperial multiplies every field by the cm→in factor. -/
noncomputable def applyUnits (units : String) (p : MeasurementProfile) :
    MeasurementProfile :=
  if units = "imperial" then
    { shoulder_width := p.shoulder_width * (cmToInFactor : ℝ)
      chest := p.chest.map (· * (cmToInFactor : ℝ))
      waist := p.waist * (cmToInFactor : ℝ)
      hip := p.hip * (cmToInFactor : ℝ)
      height := p.height * (cmToInFactor : ℝ)
      inseam := p.inseam * (cmToInFactor : ℝ)
      units := "in" }
  else { p with units := "cm" }

/-- Modelled from the spec: the metric measurement profile of §4.3 — the
six measurements in centimeters; shoulder width, height and inseam come
from the front view alone, chest needs the side view, and waist and hip
use the elliptical side-depth form when the side view supplies a usable
depth sample and the flat multiplier otherwise. -/
noncomputable def baseProfile (front : LandmarkSet) (calibrationHeight : ℚ)
    (side : Option LandmarkSet) : MeasurementProfile :=
  { shoulder_width :=
      pixelDist (landmarkAt front 11) (landmarkAt front 12) *
        scaleFactor calibrationHeight front
    chest := chestMeasurement front calibrationHeight side
    waist := waistMeasurement front calibrationHeight side
    hip := hipMeasurement front calibrationHeight side
    height := Real.sqrt ((verticalSpanSq front : ℝ)) * scaleFactor calibrationHeight front
    inseam :=
      pixelDist (midpointLm (landmarkAt front 23) (landmarkAt front 24))
        (midpointLm (landmarkAt front 27) (landmarkAt front 28)) *
        scaleFactor calibrationHeight front
    units := "cm" }

/-- Modelled from the spec: the measurement pipeline §§4.1–4.4 — validate
the front pose, calibrate, estimate, convert; any failure short-circuits
with no partial profile (§4.7). -/
noncomputable def computeMeasurements (front : LandmarkSet) (calibrationHeight : ℚ)
    (side : Option LandmarkSet) (units : String) :
    Except MeasurementFailure MeasurementProfile :=
  if validFrontPose front then
    if calibrationHeight ≤ 0 then
      .error (.calibrationError "calibration height must be positive")
    else if verticalSpanSq front ≤ spanEpsilon ^ 2 then
      .error (.calibrationError "degenerate vertical pixel span")
    else
      .ok (applyUnits units (baseProfile front calibrationHeight side))
  else
    .error (.poseDetectionFailure "required joints not detected")

/-- A concrete 33-landmark front pose used to instantiate the measurement
theorems: the head reference (index 0) at the origin, the ankles (27, 28)
four units below, every joint fully visible. -/
def demoFront : LandmarkSet :=
  [⟨0, 0, 1⟩,
   ⟨1, 2, 1⟩, ⟨1, 2, 1⟩, ⟨1, 2, 1⟩, ⟨1, 2, 1⟩, ⟨1, 2, 1⟩, ⟨1, 2, 1⟩, ⟨1, 2, 1⟩,
   ⟨1, 2, 1⟩, ⟨1, 2, 1⟩, ⟨1, 2, 1⟩, ⟨1, 2, 1⟩, ⟨1, 2, 1⟩, ⟨1, 2, 1⟩, ⟨1, 2, 1⟩,
   ⟨1, 2, 1⟩, ⟨1, 2, 1⟩, ⟨1, 2, 1⟩, ⟨1, 2, 1⟩, ⟨1, 2, 1⟩, ⟨1, 2, 1⟩, ⟨1, 2, 1⟩,
   ⟨1, 2, 1⟩, ⟨1, 2, 1⟩, ⟨1, 2, 1⟩, ⟨1, 2, 1⟩, ⟨1, 2, 1⟩, ⟨0, 4, 1⟩, ⟨0, 4, 1⟩,
   ⟨1, 2, 1⟩, ⟨1, 2, 1⟩, ⟨1, 2, 1⟩, ⟨1, 2, 1⟩]

/-- A concrete 33-landmark side pose: head at the origin, ankles four
units below, the shoulder and hip pairs two pixels apart so the side view
offers nonzero depth samples, every joint fully visible. -/
def demoSide : LandmarkSet :=
  [⟨0, 0, 1⟩,
   ⟨1, 2, 1⟩, ⟨1, 2, 1⟩, ⟨1, 2, 1⟩, ⟨1, 2, 1⟩, ⟨1, 2, 1⟩, ⟨1, 2, 1⟩, ⟨1, 2, 1⟩,
   ⟨1, 2, 1⟩, ⟨1, 2, 1⟩, ⟨1, 2, 1⟩, ⟨0, 2, 1⟩, ⟨2, 2, 1⟩, ⟨1, 2, 1⟩, ⟨1, 2, 1⟩,
   ⟨1, 2, 1⟩, ⟨1, 2, 1⟩, ⟨1, 2, 1⟩, ⟨1, 2, 1⟩, ⟨1, 2, 1⟩, ⟨1, 2, 1⟩, ⟨1, 2, 1⟩,
   ⟨1, 2, 1⟩, ⟨0, 2, 1⟩, ⟨2, 2, 1⟩, ⟨1, 2, 1⟩, ⟨1, 2, 1⟩, ⟨0, 4, 1⟩, ⟨0, 4, 1⟩,
   ⟨1, 2, 1⟩, ⟨1, 2, 1⟩, ⟨1, 2, 1⟩, ⟨1, 2, 1⟩]

/-! ## Theorems -/

/-- C2: for every category list and every gender, the gender filter keeps
exactly the categories whose key starts with `MENS_` for a male query, and
exactly those whose key starts with `WOMENS_` or equals the literal
`DRESS` for a female query. -/
theorem filterCategoriesByGender_exact (cats : List GarmentCategoryInfo)
    (c : GarmentCategoryInfo) :
    (c ∈ filterCategoriesByGender "male" cats ↔
      c ∈ cats ∧ c.key.startsWith "MENS_" = true) ∧
    (c ∈ filterCategoriesByGender "female" cats ↔
      c ∈ cats ∧ (c.key.startsWith "WOMENS_" = true ∨ c.key = "DRESS")) := by
  constructor <;>
    simp [filterCategoriesByGender, genderKeeps, List.mem_filter]

/-- C3: a measurement request whose front image is missing or whose
calibration height is absent or not strictly positive is rejected with a
validation message before any request is submitted, and the form
validation disables the calculate button for it. -/
theorem calculateMeasurements_rejects_invalid (frontImage sideImage : Option String)
    (height : Option ℚ) (units gender : String)
    (hbad : frontImage = none ∨ height = none ∨ ∃ q, height = some q ∧ q ≤ 0) :
    (calculateMeasurements frontImage sideImage height units gender).isRejected = true ∧
    validateForm frontImage height = false := by
  rcases hbad with rfl | rfl | ⟨q, rfl, hq⟩
  · simp [calculateMeasurements, CalcAction.isRejected, validateForm]
  · cases frontImage <;>
      simp [calculateMeasurements, CalcAction.isRejected, validateForm]
  · cases frontImage <;>
      simp [calculateMeasurements, CalcAction.isRejected, validateForm, hq,
        not_lt.mpr hq]

/-- C3 witness: a request with no front image is rejected. -/
theorem calculateMeasurements_rejects_invalid_witness :
    (calculateMeasurements none none (some 170) "metric" "female").isRejected = true ∧
    validateForm none (some 170) = false :=
  calculateMeasurements_rejects_invalid none none (some 170) "metric" "female"
    (Or.inl rfl)

/-- C5: the fit score of every evaluated size band lies in the closed unit
interval. -/
theorem fitScore_mem_unitInterval (profile : String → ℝ) (band : SizeBand) :
    0 ≤ fitScore profile band ∧ fitScore profile band ≤ 1 := by
  unfold fitScore clamp01
  exact ⟨le_max_left 0 _, max_le (by norm_num) (min_le_left 1 _)⟩

/-- C7: converting a measurement from centimeters to inches and back
returns the original value within the 1e-6 tolerance (the round trip is in
fact exact). -/
theorem unitConversion_roundTrip (x : ℚ) :
    |convertInToCm (convertCmToIn x) - x| ≤ 1 / 1000000 := by
  have h : convertInToCm (convertCmToIn x) = x := by
    unfold convertInToCm convertCmToIn cmToInFactor
    field_simp
  rw [h, sub_self, abs_zero]
  norm_num

/-- C8: `processFile` leaves the error banner hidden exactly when the file
has one of the accepted MIME types and is at most 10 MiB, and whenever it
shows an error it leaves the stored image state untouched. -/
theorem processFile_accepts_iff (file : UploadFile) (slot : ImageSlot)
    (st : UploadState) :
    ((processFile file slot st).2 = none ↔
      file.mime ∈ validTypes ∧ file.size ≤ maxFileSize) ∧
    ((processFile file slot st).2 ≠ none → (processFile file slot st).1 = st) := by
  by_cases ht : file.mime ∈ validTypes
  · by_cases hs : maxFileSize < file.size
    · simp [processFile, ht, hs, not_le.mpr hs]
    · cases slot <;> simp [processFile, ht, hs, le_of_not_lt hs]
  · simp [processFile, ht]

/-- C6 counterexample: a landmark whose confidence is exactly 0.5 meets the
claimed `≥ 0.5` usability threshold and is nevertheless not rendered by
`drawSkeleton`, whose check is strict. -/
theorem drawSkeleton_boundary_not_rendered :
    (1/2 : ℚ) ≥ 1/2 ∧ drawnLandmarks [⟨0, 0, 1/2⟩] = [] := by
  constructor
  · norm_num
  · simp only [drawnLandmarks, List.filter_cons, List.filter_nil]
    norm_num

/-- C6 (amended): `drawSkeleton` treats a joint as usable exactly when its
confidence strictly exceeds 0.5 — a landmark is rendered iff its
visibility is greater than 0.5, and a connection is rendered iff both its
endpoint landmarks exist and both visibilities are greater than 0.5. -/
theorem drawSkeleton_strict_threshold (lms : List PoseLandmark)
    (lm : PoseLandmark) (c : ℕ × ℕ) :
    (lm ∈ drawnLandmarks lms ↔ lm ∈ lms ∧ 1/2 < lm.visibility) ∧
    (c ∈ drawnConnections lms ↔ c ∈ skeletonConnections ∧
      ∃ a b, lms[c.1]? = some a ∧ lms[c.2]? = some b ∧
        1/2 < a.visibility ∧ 1/2 < b.visibility) := by
  constructor
  · simp [drawnLandmarks, List.mem_filter]
  · cases h1 : lms[c.1]? <;> cases h2 : lms[c.2]? <;>
      simp [drawnConnections, List.mem_filter, connectionVisible, h1, h2,
        and_assoc]

/-- Helper: `find?` succeeds exactly when `any` holds. -/
theorem find?_isSome_eq_any (p : ClothItem → Bool) (l : List ClothItem) :
    (l.find? p).isSome = l.any p := by
  induction l with
  | nil => rfl
  | cons a l ih =>
    by_cases h : p a = true
    · simp [List.find?_cons_of_pos _ h, h]
    · simp [List.find?_cons_of_neg _ h, h, ih]

/-- Helper: filtering out an id removes that id from any-membership. -/
theorem any_filter_self_id (l : List ClothItem) (tid : String) :
    (l.filter (fun i => i.id != tid)).any (fun i => i.id == tid) = false := by
  induction l with
  | nil => rfl
  | cons a l ih =>
    by_cases h : a.id = tid <;> simp [List.filter_cons, h, ih]

/-- Helper: filtering out one id leaves any other id's membership alone. -/
theorem any_filter_ne_id (l : List ClothItem) (j tid : String) (hj : j ≠ tid) :
    (l.filter (fun i => i.id != tid)).any (fun i => i.id == j) =
      l.any (fun i => i.id == j) := by
  induction l with
  | nil => rfl
  | cons a l ih =>
    by_cases h : a.id = tid
    · have hne : ¬ tid = j := fun e => hj e.symm
      simp [List.filter_cons, h, ih, hne]
    · simp [List.filter_cons, h, ih]

/-- Helper: one toggle flips the toggled id's membership and fixes every
other id. -/
theorem selectedById_handleToggleCloth (item : ClothItem) (prev : List ClothItem)
    (j : String) :
    selectedById j (handleToggleCloth item prev) =
      if j = item.id then !selectedById j prev else selectedById j prev := by
  unfold handleToggleCloth
  simp only [find?_isSome_eq_any]
  by_cases hsel : prev.any (fun i => i.id == item.id) = true
  · rw [if_pos hsel]
    by_cases hj : j = item.id
    · subst hj
      rw [if_pos rfl]
      simp only [selectedById] at hsel ⊢
      rw [hsel, any_filter_self_id]
      rfl
    · rw [if_neg hj]
      exact any_filter_ne_id prev j item.id hj
  · rw [if_neg hsel]
    have habs : prev.any (fun i => i.id == item.id) = false := by
      cases h : prev.any (fun i => i.id == item.id)
      · rfl
      · exact absurd h hsel
    by_cases hj : j = item.id
    · subst hj
      rw [if_pos rfl]
      simp only [selectedById, List.any_append, List.any_cons, List.any_nil]
      simp [habs]
    · rw [if_neg hj]
      have hne : (item.id == j) = false := by
        simp only [beq_eq_false_iff_ne]
        exact fun e => hj e.symm
      simp only [selectedById, List.any_append, List.any_cons, List.any_nil, hne]
      simp

/-- C10: the `handleToggleCloth` updater negates the toggled item's
id-membership, leaves every other id's membership unchanged, and applied
twice restores the original membership. -/
theorem handleToggleCloth_membership (prev : List ClothItem) (item : ClothItem)
    (j : String) :
    selectedById item.id (handleToggleCloth item prev) =
      !selectedById item.id prev ∧
    (j ≠ item.id →
      selectedById j (handleToggleCloth item prev) = selectedById j prev) ∧
    selectedById j (handleToggleCloth item (handleToggleCloth item prev)) =
      selectedById j prev := by
  refine ⟨?_, fun hj => ?_, ?_⟩
  · rw [selectedById_handleToggleCloth, if_pos rfl]
  · rw [selectedById_handleToggleCloth, if_neg hj]
  · rw [selectedById_handleToggleCloth, selectedById_handleToggleCloth]
    by_cases hj : j = item.id <;> simp [hj]

/-- Helper: membership after one sorted insertion. -/
theorem mem_insertRec (a x : SizeRecommendation) (l : List SizeRecommendation) :
    x ∈ insertRec a l ↔ x = a ∨ x ∈ l := by
  induction l with
  | nil => simp [insertRec]
  | cons b l ih =>
    by_cases h : b.fit_score ≤ a.fit_score
    · simp [insertRec, h]
    · simp [insertRec, h, ih]
      tauto

/-- Helper: insertion preserves the non-increasing fit-score order. -/
theorem sorted_insertRec (a : SizeRecommendation) (l : List SizeRecommendation)
    (hl : List.Sorted (fun x y : SizeRecommendation => y.fit_score ≤ x.fit_score) l) :
    List.Sorted (fun x y : SizeRecommendation => y.fit_score ≤ x.fit_score)
      (insertRec a l) := by
  induction l with
  | nil => simp [insertRec]
  | cons b l ih =>
    rw [List.sorted_cons] at hl
    obtain ⟨hb, hl'⟩ := hl
    by_cases h : b.fit_score ≤ a.fit_score
    · rw [insertRec, if_pos h, List.sorted_cons]
      refine ⟨?_, ?_⟩
      · intro y hy
        rcases List.mem_cons.mp hy with rfl | hy'
        · exact h
        · exact (hb y hy').trans h
      · rw [List.sorted_cons]
        exact ⟨hb, hl'⟩
    · rw [insertRec, if_neg h, List.sorted_cons]
      refine ⟨?_, ih hl'⟩
      intro y hy
      rcases (mem_insertRec a y l).mp hy with rfl | hy'
      · exact le_of_lt (not_le.mp h)
      · exact hb y hy'

/-- Helper: insertion is a permutation of consing. -/
theorem perm_insertRec (a : SizeRecommendation) (l : List SizeRecommendation) :
    (insertRec a l).Perm (a :: l) := by
  induction l with
  | nil => rfl
  | cons b l ih =>
    by_cases h : b.fit_score ≤ a.fit_score
    · rw [insertRec, if_pos h]
    · rw [insertRec, if_neg h]
      exact (ih.cons b).trans (List.Perm.swap a b l)

/-- Helper: the §8 tie scenario — two bands tied at fit score 0.82, given
in catalog order smallest→largest, sort with the smaller size first, so
the assembler's element 0 is the spec's tie-broken best match. -/
theorem sortRecs_tie_prefers_smaller :
    sortRecs [⟨"S", 82/100, "Good Fit", []⟩, ⟨"M", 82/100, "Good Fit", []⟩] =
      [⟨"S", 82/100, "Good Fit", []⟩, ⟨"M", 82/100, "Good Fit", []⟩] := by
  simp [sortRecs, insertRec]

/-- Helper: the assembler's sort is sorted. -/
theorem sorted_sortRecs (l : List SizeRecommendation) :
    List.Sorted (fun x y : SizeRecommendation => y.fit_score ≤ x.fit_score)
      (sortRecs l) := by
  induction l with
  | nil => simp [sortRecs]
  | cons a l ih => exact sorted_insertRec a (sortRecs l) ih

/-- Helper: the assembler's sort permutes its input. -/
theorem perm_sortRecs (l : List SizeRecommendation) : (sortRecs l).Perm l := by
  induction l with
  | nil => rfl
  | cons a l ih => exact (perm_insertRec a (sortRecs l)).trans (ih.cons a)

/-- C1: the assembled recommendation list is sorted non-increasing by fit
score, holds exactly one entry per evaluated size band, and its first
element scores at least as well as every entry, so index 0 is the best
match. -/
theorem assembleRecommendations_sorted_best (profile : String → ℝ)
    (bands : List SizeBand) :
    List.Sorted (fun x y : SizeRecommendation => y.fit_score ≤ x.fit_score)
      (assembleRecommendations profile bands) ∧
    (assembleRecommendations profile bands).Perm (bands.map (scoreBand profile)) ∧
    (∀ r ∈ assembleRecommendations profile bands,
      ∀ best, (assembleRecommendations profile bands).head? = some best →
        r.fit_score ≤ best.fit_score) := by
  refine ⟨sorted_sortRecs _, perm_sortRecs _, ?_⟩
  intro r hr best hbest
  have hs := sorted_sortRecs (bands.map (scoreBand profile))
  rw [show sortRecs (bands.map (scoreBand profile)) =
        assembleRecommendations profile bands from rfl] at hs
  cases hout : assembleRecommendations profile bands with
  | nil =>
    rw [hout] at hbest
    simp at hbest
  | cons h0 tl =>
    rw [hout] at hbest hr hs
    have hbest' : h0 = best := by simpa using hbest
    subst hbest'
    rw [List.sorted_cons] at hs
    rcases List.mem_cons.mp hr with rfl | hr'
    · exact le_refl _
    · exact hs.1 r hr'

/-- Helper: the demo front pose passes the §4.1 validation. -/
theorem demoFront_valid : validFrontPose demoFront = true := by
  have h11 : (landmarkAt demoFront 11).visibility = 1 := rfl
  have h12 : (landmarkAt demoFront 12).visibility = 1 := rfl
  have h23 : (landmarkAt demoFront 23).visibility = 1 := rfl
  have h24 : (landmarkAt demoFront 24).visibility = 1 := rfl
  have h27 : (landmarkAt demoFront 27).visibility = 1 := rfl
  have h28 : (landmarkAt demoFront 28).visibility = 1 := rfl
  have h0 : (landmarkAt demoFront 0).visibility = 1 := rfl
  have hlen : demoFront.length = 33 := rfl
  simp only [validFrontPose, jointUsable, Bool.and_eq_true, beq_iff_eq,
    decide_eq_true_eq, h11, h12, h23, h24, h27, h28, h0, hlen]
  norm_num

/-- Helper: the demo front pose's vertical span is non-degenerate. -/
theorem demoFront_span : spanEpsilon ^ 2 < verticalSpanSq demoFront := by
  have h0 : landmarkAt demoFront 0 = ⟨0, 0, 1⟩ := rfl
  have h27 : landmarkAt demoFront 27 = ⟨0, 4, 1⟩ := rfl
  have h28 : landmarkAt demoFront 28 = ⟨0, 4, 1⟩ := rfl
  rw [verticalSpanSq, h0, h27, h28]
  norm_num [pixelDistSq, midpointLm, spanEpsilon]

/-- Helper: the demo side pose's vertical span is non-degenerate. -/
theorem demoSide_span : spanEpsilon ^ 2 < verticalSpanSq demoSide := by
  have h0 : landmarkAt demoSide 0 = ⟨0, 0, 1⟩ := rfl
  have h27 : landmarkAt demoSide 27 = ⟨0, 4, 1⟩ := rfl
  have h28 : landmarkAt demoSide 28 = ⟨0, 4, 1⟩ := rfl
  rw [verticalSpanSq, h0, h27, h28]
  norm_num [pixelDistSq, midpointLm, spanEpsilon]

/-- Helper: the elliptical circumference is positive once the depth is. -/
theorem ellipticalCircumference_pos (width depth : ℝ) (hd : 0 < depth) :
    0 < ellipticalCircumference width depth := by
  unfold ellipticalCircumference
  have h1 : 0 < 2 * (width ^ 2 + depth ^ 2) := by nlinarith [sq_nonneg width]
  have h2 : 0 < Real.sqrt (2 * (width ^ 2 + depth ^ 2)) := Real.sqrt_pos.mpr h1
  exact div_pos (mul_pos Real.pi_pos h2) (by norm_num)

/-- Helper: under valid front inputs the pipeline returns the converted
base profile whatever the side argument is. -/
theorem computeMeasurements_ok (front : LandmarkSet) (cal : ℚ) (units : String)
    (side : Option LandmarkSet) (hv : validFrontPose front = true) (hc : 0 < cal)
    (hs : spanEpsilon ^ 2 < verticalSpanSq front) :
    computeMeasurements front cal side units =
      .ok (applyUnits units (baseProfile front cal side)) := by
  simp [computeMeasurements, hv, not_le.mpr hc, not_le.mpr hs]

/-- C4 counterexample: under the §4.3 estimator the side view does not
only feed chest — at a concrete valid front pose whose hip and waist
widths are zero and a concrete side pose with nonzero depth samples, the
side-supplied run's hip and waist (elliptical form, positive) differ from
the side-less run's (flat multiplier of a zero width, zero), so the claim
that the five non-chest measurements are unaffected by the side image is
false. -/
theorem computeMeasurements_side_affects_hip_waist :
    ∃ p p', computeMeasurements demoFront 170 none "metric" = .ok p ∧
      computeMeasurements demoFront 170 (some demoSide) "metric" = .ok p' ∧
      p'.hip ≠ p.hip ∧ p'.waist ≠ p.waist := by
  have hc : (0 : ℚ) < 170 := by norm_num
  refine ⟨applyUnits "metric" (baseProfile demoFront 170 none),
    applyUnits "metric" (baseProfile demoFront 170 (some demoSide)),
    computeMeasurements_ok demoFront 170 "metric" none demoFront_valid hc
      demoFront_span,
    computeMeasurements_ok demoFront 170 "metric" (some demoSide) demoFront_valid
      hc demoFront_span, ?_, ?_⟩
  all_goals
    have husH : sideUsableForHip demoSide = true := by
      have h23v : (landmarkAt demoSide 23).visibility = 1 := rfl
      have h24v : (landmarkAt demoSide 24).visibility = 1 := rfl
      have hlen : demoSide.length = 33 := rfl
      simp only [sideUsableForHip, jointUsable, Bool.and_eq_true, beq_iff_eq,
        decide_eq_true_eq, h23v, h24v, hlen, demoSide_span]
      norm_num
    have husW : sideUsableForWaist demoSide = true := by
      have h11v : (landmarkAt demoSide 11).visibility = 1 := rfl
      have h12v : (landmarkAt demoSide 12).visibility = 1 := rfl
      have h23v : (landmarkAt demoSide 23).visibility = 1 := rfl
      have h24v : (landmarkAt demoSide 24).visibility = 1 := rfl
      have hlen : demoSide.length = 33 := rfl
      simp only [sideUsableForWaist, jointUsable, Bool.and_eq_true, beq_iff_eq,
        decide_eq_true_eq, h11v, h12v, h23v, h24v, hlen, demoSide_span]
      norm_num
    have hscale : 0 < scaleFactor 170 demoSide := by
      rw [scaleFactor]
      refine div_pos (by norm_num) (Real.sqrt_pos.mpr ?_)
      have h16 : verticalSpanSq demoSide = 16 := by
        have h0 : landmarkAt demoSide 0 = ⟨0, 0, 1⟩ := rfl
        have h27 : landmarkAt demoSide 27 = ⟨0, 4, 1⟩ := rfl
        have h28 : landmarkAt demoSide 28 = ⟨0, 4, 1⟩ := rfl
        rw [verticalSpanSq, h0, h27, h28]
        norm_num [pixelDistSq, midpointLm]
      rw [h16]
      norm_num
  · -- hip differs
    have hw0 : hipWidth demoFront 170 = 0 := by
      have h23 : landmarkAt demoFront 23 = ⟨1, 2, 1⟩ := rfl
      have h24 : landmarkAt demoFront 24 = ⟨1, 2, 1⟩ := rfl
      have hsq : pixelDistSq (⟨1, 2, 1⟩ : Landmark) ⟨1, 2, 1⟩ = 0 := by
        norm_num [pixelDistSq]
      rw [hipWidth, h23, h24, pixelDist, hsq]
      simp
    have hd : 0 < hipDepth demoSide 170 := by
      have h23 : landmarkAt demoSide 23 = ⟨0, 2, 1⟩ := rfl
      have h24 : landmarkAt demoSide 24 = ⟨2, 2, 1⟩ := rfl
      have hsq : pixelDistSq (⟨0, 2, 1⟩ : Landmark) ⟨2, 2, 1⟩ = 4 := by
        norm_num [pixelDistSq]
      rw [hipDepth, h23, h24, pixelDist, hsq]
      exact mul_pos (Real.sqrt_pos.mpr (by norm_num)) hscale
    have hside : (applyUnits "metric" (baseProfile demoFront 170 (some demoSide))).hip =
        ellipticalCircumference (hipWidth demoFront 170) (hipDepth demoSide 170) := by
      simp [applyUnits, baseProfile, hipMeasurement, husH]
    have hnone : (applyUnits "metric" (baseProfile demoFront 170 none)).hip = 0 := by
      simp [applyUnits, baseProfile, hipMeasurement, hw0]
    rw [hside, hnone]
    exact ne_of_gt (ellipticalCircumference_pos _ _ hd)
  · -- waist differs
    have hw0 : waistWidth demoFront 170 = 0 := by
      have h11 : landmarkAt demoFront 11 = ⟨1, 2, 1⟩ := rfl
      have h12 : landmarkAt demoFront 12 = ⟨1, 2, 1⟩ := rfl
      have h23 : landmarkAt demoFront 23 = ⟨1, 2, 1⟩ := rfl
      have h24 : landmarkAt demoFront 24 = ⟨1, 2, 1⟩ := rfl
      have hsq : pixelDistSq (lerpLm ⟨1, 2, 1⟩ ⟨1, 2, 1⟩ waistFraction)
          (lerpLm ⟨1, 2, 1⟩ ⟨1, 2, 1⟩ waistFraction) = 0 := by
        norm_num [pixelDistSq, lerpLm, waistFraction]
      rw [waistWidth, h11, h12, h23, h24, pixelDist, hsq]
      simp
    have hd : 0 < waistDepth demoSide 170 := by
      have h11 : landmarkAt demoSide 11 = ⟨0, 2, 1⟩ := rfl
      have h12 : landmarkAt demoSide 12 = ⟨2, 2, 1⟩ := rfl
      have h23 : landmarkAt demoSide 23 = ⟨0, 2, 1⟩ := rfl
      have h24 : landmarkAt demoSide 24 = ⟨2, 2, 1⟩ := rfl
      have hsq : pixelDistSq (lerpLm ⟨0, 2, 1⟩ ⟨0, 2, 1⟩ waistFraction)
          (lerpLm ⟨2, 2, 1⟩ ⟨2, 2, 1⟩ waistFraction) = 4 := by
        norm_num [pixelDistSq, lerpLm, waistFraction]
      rw [waistDepth, h11, h12, h23, h24, pixelDist, hsq]
      exact mul_pos (Real.sqrt_pos.mpr (by norm_num)) hscale
    have hside : (applyUnits "metric" (baseProfile demoFront 170 (some demoSide))).waist =
        ellipticalCircumference (waistWidth demoFront 170) (waistDepth demoSide 170) := by
      simp [applyUnits, baseProfile, waistMeasurement, husW]
    have hnone : (applyUnits "metric" (baseProfile demoFront 170 none)).waist = 0 := by
      simp [applyUnits, baseProfile, waistMeasurement, hw0]
    rw [hside, hnone]
    exact ne_of_gt (ellipticalCircumference_pos _ _ hd)

/-- C4 (amended): a valid request without a side image still succeeds and
its chest measurement is null; shoulder width, height and inseam agree
with what any run with a side image produces, while waist and hip fall
back from the elliptical side-depth form to the flat multipliers and so
may differ from a side-supplied run. -/
theorem computeMeasurements_missing_side (front : LandmarkSet) (cal : ℚ)
    (units : String) (side : Option LandmarkSet)
    (hv : validFrontPose front = true) (hc : 0 < cal)
    (hs : spanEpsilon ^ 2 < verticalSpanSq front) :
    ∃ p, computeMeasurements front cal none units = .ok p ∧ p.chest = none ∧
      ∀ p', computeMeasurements front cal side units = .ok p' →
        p'.shoulder_width = p.shoulder_width ∧ p'.height = p.height ∧
        p'.inseam = p.inseam := by
  refine ⟨applyUnits units (baseProfile front cal none),
    computeMeasurements_ok front cal units none hv hc hs, ?_, ?_⟩
  · by_cases hu : units = "imperial" <;>
      simp [applyUnits, baseProfile, chestMeasurement, hu]
  · intro p' hp'
    rw [computeMeasurements_ok front cal units side hv hc hs] at hp'
    have hp'' : applyUnits units (baseProfile front cal side) = p' := by
      simpa using hp'
    subst hp''
    by_cases hu : units = "imperial" <;>
      simp [applyUnits, baseProfile, hu]

/-- C4 witness: the concrete demo pose without a side image yields a
successful profile with a null chest whose shoulder width, height and
inseam agree with the side-supplied run. -/
theorem computeMeasurements_missing_side_witness :
    ∃ p, computeMeasurements demoFront 170 none "metric" = .ok p ∧
      p.chest = none ∧
      ∀ p', computeMeasurements demoFront 170 (some demoSide) "metric" = .ok p' →
        p'.shoulder_width = p.shoulder_width ∧ p'.height = p.height ∧
        p'.inseam = p.inseam :=
  computeMeasurements_missing_side demoFront 170 "metric" (some demoSide)
    demoFront_valid (by norm_num) demoFront_span

/-- Helper: `dropWhile` stops at an element on which the predicate fails,
so it never crosses from an appended left part into `c :: r`. -/
theorem dropWhile_append_cons (f : Char → Bool) (l : JStr) (c : Char) (r : JStr)
    (hc : f c = false) :
    (l ++ c :: r).dropWhile f = l.dropWhile f ++ c :: r := by
  induction l with
  | nil => simp [List.dropWhile_cons, hc]
  | cons a l ih =>
    by_cases h : f a = true
    · simp [List.dropWhile_cons, h, ih]
    · simp [List.dropWhile_cons, h]

/-- Helper: trailing-whitespace removal never eats into a left part whose
last character is not whitespace. -/
theorem trimTrailing_append (p t : JStr) (c : Char) (r : JStr)
    (hrev : p.reverse = c :: r) (hc : isJsSpace c = false) :
    trimTrailing (p ++ t) = p ++ trimTrailing t := by
  unfold trimTrailing
  rw [List.reverse_append, hrev, dropWhile_append_cons isJsSpace t.reverse c r hc,
    List.reverse_append, ← hrev, List.reverse_reverse]

/-- Helper: removing one leading quote only inspects the head, so it
distributes over appending to a non-empty left part. -/
theorem dropLeadingQuote_append (l m : JStr) (hl : l ≠ []) :
    dropLeadingQuote (l ++ m) = dropLeadingQuote l ++ m := by
  cases l with
  | nil => exact absurd rfl hl
  | cons a l' =>
    by_cases h : isQuoteChar a = true <;> simp [dropLeadingQuote, h]

/-- Helper: trailing-quote removal never eats into a left part whose last
character is not a quote. -/
theorem dropTrailingQuote_append (p t : JStr) (c : Char) (r : JStr)
    (hrev : p.reverse = c :: r) (hc : isQuoteChar c = false) :
    dropTrailingQuote (p ++ t) = p ++ dropTrailingQuote t := by
  unfold dropTrailingQuote
  rw [List.reverse_append]
  by_cases ht : t = []
  · subst ht
    simp only [List.reverse_nil, List.nil_append, List.append_nil]
    rw [hrev, show dropLeadingQuote (c :: r) = c :: r by simp [dropLeadingQuote, hc],
      ← hrev, List.reverse_reverse]
    simp [dropLeadingQuote]
  · have ht' : t.reverse ≠ [] := fun h => ht (List.reverse_eq_nil_iff.mp h)
    rw [dropLeadingQuote_append t.reverse p.reverse ht', List.reverse_append,
      List.reverse_reverse]

/-- Helper: leading-whitespace removal keeps a head that is not
whitespace. -/
theorem trimLeading_cons_of_not_space (c : Char) (s : JStr)
    (hc : isJsSpace c = false) : trimLeading (c :: s) = c :: s := by
  simp [trimLeading, List.dropWhile_cons, hc]

/-- Helper: leading-quote removal keeps a head that is not a quote. -/
theorem dropLeadingQuote_cons_of_not_quote (c : Char) (s : JStr)
    (hc : isQuoteChar c = false) : dropLeadingQuote (c :: s) = c :: s := by
  simp [dropLeadingQuote, hc]

/-- Helper: the trim-then-strip-quotes cleanup of `extractImageUrl`
preserves any prefix whose first character is neither whitespace nor a
quote and whose last character is neither whitespace nor a quote. -/
theorem stripQuotes_trimChars_preserves (p s : JStr) (hpre : p <+: s)
    (c0 : Char) (p' : JStr) (hp : p = c0 :: p')
    (hc0s : isJsSpace c0 = false) (hc0q : isQuoteChar c0 = false)
    (cl : Char) (r : JStr) (hrev : p.reverse = cl :: r)
    (hcls : isJsSpace cl = false) (hclq : isQuoteChar cl = false) :
    p <+: stripQuotes (trimChars s) := by
  obtain ⟨t, rfl⟩ := hpre
  subst hp
  unfold trimChars stripQuotes
  rw [List.cons_append, trimLeading_cons_of_not_space c0 _ hc0s, ← List.cons_append,
    trimTrailing_append (c0 :: p') t cl r hrev hcls,
    List.cons_append, dropLeadingQuote_cons_of_not_quote c0 _ hc0q,
    ← List.cons_append,
    dropTrailingQuote_append (c0 :: p') (trimTrailing t) cl r hrev hclq]
  exact ⟨dropTrailingQuote (trimTrailing t), rfl⟩

/-- C9: `extractImageUrl` returns null or a string that starts with `http`
or `data:` — the final guard admits only such strings, and the trim and
quote-strip cleanup cannot destroy either prefix. -/
theorem extractImageUrl_shape (jsonParse : JStr → Option JsValue) (data : JsValue) :
    extractImageUrl jsonParse data = none ∨
      ∃ s, extractImageUrl jsonParse data = some s ∧
        (httpChars <+: s ∨ dataColonChars <+: s) := by
  unfold extractImageUrl
  generalize resultOf (parseIfJson jsonParse (unwrapArray data)) = result
  cases result with
  | str s =>
    by_cases hcond :
        (!s.isEmpty && (httpChars.isPrefixOf s || dataColonChars.isPrefixOf s)) = true
    · right
      refine ⟨stripQuotes (trimChars s), ?_, ?_⟩
      · simp only [finalGuard]
        rw [if_pos hcond]
      · have hcond' := hcond
        simp only [Bool.and_eq_true, Bool.or_eq_true] at hcond'
        rcases hcond'.2 with h | h
        · have hp : httpChars <+: s := List.isPrefixOf_iff_prefix.mp h
          exact Or.inl (stripQuotes_trimChars_preserves httpChars s hp
            'h' "ttp".data rfl (by decide)
            (by decide) 'p' "tth".data rfl (by decide) (by decide))
        · have hp : dataColonChars <+: s := List.isPrefixOf_iff_prefix.mp h
          exact Or.inr (stripQuotes_trimChars_preserves dataColonChars s hp
            'd' "ata:".data rfl (by decide)
            (by decide) ':' "atad".data rfl (by decide) (by decide))
    · left
      simp only [finalGuard]
      rw [if_neg hcond]
  | num q => exact Or.inl rfl
  | boolean b => exact Or.inl rfl
  | nullv => exact Or.inl rfl
  | undefVal => exact Or.inl rfl
  | obj fields => exact Or.inl rfl
  | arr elems => exact Or.inl rfl

end VirtualTryOn
